import Mathlib

/-!
Verification of the admin media-management surface of a federated messaging
server (src/synapse/rest/admin/media.py) against its specification.

The REST layer in the source file validates input and delegates to a metadata
store and a media repository.  The REST-layer logic (parameter validation,
check ordering, response assembly) is embedded directly from the source; the
store/repository operations it calls are not part of the provided sources and
are modelled from the specification, each such definition saying so in its
doc comment.
-/

namespace Synapse

/-- Primary key of a media record: origin server plus opaque id
(spec section 3, "Identity"). -/
structure MediaKey where
  server_name : String
  media_id : String
deriving DecidableEq, Repr

/-- One media record, local or cached-remote (spec section 3, MediaRecord). -/
structure MediaRecord where
  key : MediaKey
  user_id : String
  upload_name : String
  media_type : String
  media_length : Nat
  created_ts : Nat
  last_access_ts : Nat
  quarantined_by : Option String
  safe_from_quarantine : Bool
deriving DecidableEq, Repr

/-- The metadata store: a finite collection of media records. -/
structure MediaStore where
  records : List MediaRecord
deriving DecidableEq, Repr

/-- Error taxonomy of the admin surface (spec section 7): malformed input,
unknown entity, non-admin caller. -/
inductive AdminError where
  | invalidParameter
  | notFound
  | forbidden
deriving DecidableEq, Repr

/-- Modelled from the spec: the per-record effect of `setQuarantine`
(spec section 4.1).  A null actor clears the quarantine unconditionally;
a non-null actor is skipped when the record is protected. -/
def applyQuarantine (qb : Option String) (r : MediaRecord) : MediaRecord :=
  match qb with
  | none => { r with quarantined_by := none }
  | some a => if r.safe_from_quarantine then r else { r with quarantined_by := some a }

/-- Modelled from the spec: bulk quarantine-flag mutation `setQuarantine`
(spec section 4.1), missing from src/ (only its callers are given).
Returns the new store and the affected count: the number of records whose
quarantine flag actually changed (spec section 4.3). -/
def setQuarantine (keys : List MediaKey) (qb : Option String) (s : MediaStore) :
    MediaStore × Nat :=
  (⟨s.records.map fun r => if keys.contains r.key then applyQuarantine qb r else r⟩,
   s.records.countP fun r =>
     keys.contains r.key && ((applyQuarantine qb r).quarantined_by != r.quarantined_by))

/-- Modelled from the spec: the store's `quarantine_media_by_id`
(spec section 4.3, quarantineById/unquarantineById), missing from src/:
`setQuarantine` on the singleton key set. -/
def quarantine_media_by_id (server_name media_id : String) (qb : Option String)
    (s : MediaStore) : MediaStore :=
  (setQuarantine [⟨server_name, media_id⟩] qb s).1

/-- Modelled from the spec: the per-record effect of `setSafe`
(spec section 4.1): toggles the protection flag of the named local record,
and setting it safe also clears `quarantined_by`. -/
def markSafeOne (hostname media_id : String) (safe : Bool) (r : MediaRecord) :
    MediaRecord :=
  if r.key.server_name == hostname && r.key.media_id == media_id then
    { r with safe_from_quarantine := safe,
             quarantined_by := if safe then none else r.quarantined_by }
  else r

/-- Modelled from the spec: the store's `mark_local_media_as_safe`
(spec section 4.1, setSafe), missing from src/ (only its callers are given). -/
def mark_local_media_as_safe (hostname media_id : String) (safe : Bool)
    (s : MediaStore) : MediaStore :=
  ⟨s.records.map (markSafeOne hostname media_id safe)⟩

/-- Modelled from the spec: store-level bulk delete (spec section 4.1,
delete): removes the records with the given keys, silently ignoring
non-existent keys. -/
def deleteKeys (keys : List MediaKey) (s : MediaStore) : MediaStore :=
  ⟨s.records.filter fun r => !(keys.contains r.key)⟩

/-- Modelled from the spec: point lookup of a local media record
(spec section 4.1, get), missing from src/. -/
def get_local_media (hostname media_id : String) (s : MediaStore) :
    Option MediaRecord :=
  s.records.find? fun r => r.key.server_name == hostname && r.key.media_id == media_id

/-- Modelled from the spec: the media repository's `delete_local_media_ids`
(spec section 4.4, deletion procedure), missing from src/: deletes the named
local records together with their backing bytes (byte-storage failures are
not modelled, so every existing candidate is deleted) and returns the list
of deleted ids and the candidate total. -/
def delete_local_media_ids (hostname : String) (ids : List String)
    (s : MediaStore) : MediaStore × List String × Nat :=
  let found := ids.filter fun i => (get_local_media hostname i s).isSome
  (⟨s.records.filter fun r =>
      !(r.key.server_name == hostname && ids.contains r.key.media_id)⟩,
   found, found.length)

/-- Modelled from the spec: the media repository's age-only purge
`delete_old_remote_media` (spec section 4.4, mode 1), missing from src/:
deletes cached remote media last accessed before the cutoff. -/
def delete_old_remote_media (hostname : String) (before_ts : Int)
    (s : MediaStore) : MediaStore × List String :=
  let victim : MediaRecord → Bool := fun r =>
    r.key.server_name != hostname && decide ((r.last_access_ts : Int) < before_ts)
  (⟨s.records.filter fun r => !(victim r)⟩,
   (s.records.filter victim).map fun r => r.key.media_id)

/-- Modelled from the spec: the media repository's age+size+safety purge
`delete_old_local_media` (spec section 4.4, mode 2), missing from src/:
deletes local media created before the cutoff and larger than `size_gt`,
sparing profile pictures when `keep_profiles` is set.  `profiles` is the
external profile index. -/
def delete_old_local_media (hostname : String) (profiles : List String)
    (before_ts size_gt : Int) (keep_profiles : Bool) (s : MediaStore) :
    MediaStore × List String × Nat :=
  let victim : MediaRecord → Bool := fun r =>
    r.key.server_name == hostname &&
    decide ((r.created_ts : Int) < before_ts) &&
    decide ((r.media_length : Int) > size_gt) &&
    !(keep_profiles && profiles.contains r.key.media_id)
  let victims := s.records.filter victim
  (⟨s.records.filter fun r => !(victim r)⟩,
   victims.map (fun r => r.key.media_id), victims.length)

/-- Modelled from the spec: the store's `quarantine_media_ids_in_room`
(spec sections 4.2 and 4.3, quarantineRoom), missing from src/: given the
room's resolved local media ids and remote media keys, quarantines their
union and returns the affected count. -/
def quarantine_media_ids_in_room (hostname : String)
    (locals : List String) (remotes : List MediaKey) (actor : String)
    (s : MediaStore) : MediaStore × Nat :=
  setQuarantine (locals.map (fun i => ⟨hostname, i⟩) ++ remotes) (some actor) s

/-- Modelled from the spec: the store's `quarantine_media_ids_by_user`
(spec section 4.3, quarantineUser), missing from src/: quarantines all local
media uploaded by the user. -/
def quarantine_media_ids_by_user (hostname user_id actor : String)
    (s : MediaStore) : MediaStore × Nat :=
  setQuarantine
    ((s.records.filter fun r =>
        r.key.server_name == hostname && r.user_id == user_id).map fun r => r.key)
    (some actor) s

/-- Sort keys accepted by the user-media listing
(src/synapse/rest/admin/media.py, MediaSortOrder allowed values). -/
inductive MediaSortOrder where
  | media_id
  | upload_name
  | created_ts
  | last_access_ts
  | media_length
  | media_type
  | quarantined_by
  | safe_from_quarantine
deriving DecidableEq, Repr

/-- Sort direction: forward or backward
(src/synapse/rest/admin/media.py, the allowed values of the dir parameter). -/
inductive SortDirection where
  | f
  | b
deriving DecidableEq, Repr

/-- Boolean string order used as a comparator for sorting. -/
def strLe (a b : String) : Bool := a == b || decide (a < b)

/-- Boolean order on optional strings, absent before present. -/
def optStrLe : Option String → Option String → Bool
  | none, _ => true
  | some _, none => false
  | some a, some b => strLe a b

/-- Boolean order on booleans, false before true. -/
def boolLe (a b : Bool) : Bool := !a || b

/-- Comparator on records for a given sort key, without tie-break. -/
def primLe (o : MediaSortOrder) (a b : MediaRecord) : Bool :=
  match o with
  | .media_id => strLe a.key.media_id b.key.media_id
  | .upload_name => strLe a.upload_name b.upload_name
  | .created_ts => a.created_ts ≤ b.created_ts
  | .last_access_ts => a.last_access_ts ≤ b.last_access_ts
  | .media_length => a.media_length ≤ b.media_length
  | .media_type => strLe a.media_type b.media_type
  | .quarantined_by => optStrLe a.quarantined_by b.quarantined_by
  | .safe_from_quarantine => boolLe a.safe_from_quarantine b.safe_from_quarantine

/-- Equality of records under a given sort key. -/
def primEq (o : MediaSortOrder) (a b : MediaRecord) : Bool :=
  primLe o a b && primLe o b a

/-- Modelled from the spec: the record order used by `listByUser`
(spec section 4.1): the chosen sort key with tie-break on `media_id`,
reversed for the backward direction. -/
def recordLe (o : MediaSortOrder) (d : SortDirection) (a b : MediaRecord) : Bool :=
  let le := fun x y =>
    if primEq o x y then strLe x.key.media_id y.key.media_id else primLe o x y
  match d with
  | .f => le a b
  | .b => le b a

/-- Insert into a list sorted by the boolean comparator. -/
def insertLe {α : Type} (le : α → α → Bool) (x : α) : List α → List α
  | [] => [x]
  | y :: ys => if le x y then x :: y :: ys else y :: insertLe le x ys

/-- Insertion sort by a boolean comparator. -/
def sortByLe {α : Type} (le : α → α → Bool) : List α → List α
  | [] => []
  | x :: xs => insertLe le x (sortByLe le xs)

/-- Modelled from the spec: the store's `get_local_media_by_user_paginate`
(spec section 4.1, listByUser), missing from src/: the sorted local media of
the user, one page of at most `limit` rows starting at offset `start`,
together with the total row count. -/
def get_local_media_by_user_paginate (hostname : String) (s : MediaStore)
    (start limit : Nat) (user_id : String) (o : MediaSortOrder)
    (d : SortDirection) : List MediaRecord × Nat :=
  let user_media := s.records.filter fun r =>
    r.key.server_name == hostname && r.user_id == user_id
  (((sortByLe (recordLe o d) user_media).drop start).take limit, user_media.length)

/-- Sort-parameter resolution of the user-media servlet
(src/synapse/rest/admin/media.py lines 395-418 and 462-485): when neither
`order_by` nor `dir` is supplied, sort by creation time backward; otherwise
the missing one defaults to `created_ts` respectively forward. -/
def resolveSort (order_by : Option MediaSortOrder) (dir : Option SortDirection) :
    MediaSortOrder × SortDirection :=
  match order_by, dir with
  | none, none => (.created_ts, .b)
  | o, d => (o.getD .created_ts, d.getD .f)

/-- Response of the user-media GET endpoint. -/
structure UserMediaResponse where
  media : List MediaRecord
  total : Nat
  next_token : Option Int
deriving DecidableEq, Repr

/-- Embedding of UserMediaRestServlet.on_GET
(src/synapse/rest/admin/media.py lines 363-428): admin check, local-user
check, known-user check, non-negative `from` and `limit`, then one page of
the user's media with `next_token` present iff more rows remain. -/
def userMedia_onGET (isAdmin : Bool) (isMine : String → Bool)
    (knownUsers : List String) (hostname : String) (s : MediaStore)
    (user_id : String) (start limit : Int)
    (order_by : Option MediaSortOrder) (dir : Option SortDirection) :
    Except AdminError UserMediaResponse :=
  if !isAdmin then .error .forbidden
  else if !(isMine user_id) then .error .invalidParameter
  else if !(knownUsers.contains user_id) then .error .notFound
  else if start < 0 then .error .invalidParameter
  else if limit < 0 then .error .invalidParameter
  else
    let (o, d) := resolveSort order_by dir
    let (media, total) :=
      get_local_media_by_user_paginate hostname s start.toNat limit.toNat user_id o d
    .ok ⟨media, total,
         if start + limit < (total : Int) then some (start + media.length) else none⟩

/-- Embedding of UserMediaRestServlet.on_DELETE
(src/synapse/rest/admin/media.py lines 430-495): the same checks and
pagination as GET, then deletion of exactly the media ids of that one page. -/
def userMedia_onDELETE (isAdmin : Bool) (isMine : String → Bool)
    (knownUsers : List String) (hostname : String) (s : MediaStore)
    (user_id : String) (start limit : Int)
    (order_by : Option MediaSortOrder) (dir : Option SortDirection) :
    Except AdminError (MediaStore × List String × Nat) :=
  if !isAdmin then .error .forbidden
  else if !(isMine user_id) then .error .invalidParameter
  else if !(knownUsers.contains user_id) then .error .notFound
  else if start < 0 then .error .invalidParameter
  else if limit < 0 then .error .invalidParameter
  else
    let (o, d) := resolveSort order_by dir
    let (media, _) :=
      get_local_media_by_user_paginate hostname s start.toNat limit.toNat user_id o d
    .ok (delete_local_media_ids hostname (media.map fun r => r.key.media_id) s)

/-- Embedding of QuarantineMediaInRoom.on_POST
(src/synapse/rest/admin/media.py lines 52-65): admin check, then quarantine
of all media resolved in the room.  `resolve` is the external room/event
index backing the room-media resolver (spec section 4.2); it yields the
room's local media ids and remote media keys, or nothing for an unknown
room. -/
def quarantineMediaInRoom_onPOST (isAdmin : Bool)
    (resolve : String → Option (List String × List MediaKey))
    (hostname : String) (s : MediaStore) (room_id actor : String) :
    Except AdminError (MediaStore × Nat) :=
  if !isAdmin then .error .forbidden
  else
    match resolve room_id with
    | none => .error .notFound
    | some (locals, remotes) =>
        .ok (quarantine_media_ids_in_room hostname locals remotes actor s)

/-- Embedding of QuarantineMediaByUser.on_POST
(src/synapse/rest/admin/media.py lines 79-92). -/
def quarantineMediaByUser_onPOST (isAdmin : Bool) (hostname : String)
    (s : MediaStore) (user_id actor : String) :
    Except AdminError (MediaStore × Nat) :=
  if !isAdmin then .error .forbidden
  else .ok (quarantine_media_ids_by_user hostname user_id actor s)

/-- Embedding of QuarantineMediaByID.on_POST
(src/synapse/rest/admin/media.py lines 108-121). -/
def quarantineMediaByID_onPOST (isAdmin : Bool) (s : MediaStore)
    (server_name media_id actor : String) : Except AdminError MediaStore :=
  if !isAdmin then .error .forbidden
  else .ok (quarantine_media_by_id server_name media_id (some actor) s)

/-- Embedding of UnquarantineMediaByID.on_POST
(src/synapse/rest/admin/media.py lines 137-150): clears the quarantine of
the named media by calling the by-id quarantine mutation with a null actor. -/
def unquarantineMediaByID_onPOST (isAdmin : Bool) (s : MediaStore)
    (server_name media_id : String) : Except AdminError MediaStore :=
  if !isAdmin then .error .forbidden
  else .ok (quarantine_media_by_id server_name media_id none s)

/-- Embedding of ProtectMediaByID.on_POST
(src/synapse/rest/admin/media.py lines 162-173). -/
def protectMediaByID_onPOST (isAdmin : Bool) (hostname : String)
    (s : MediaStore) (media_id : String) : Except AdminError MediaStore :=
  if !isAdmin then .error .forbidden
  else .ok (mark_local_media_as_safe hostname media_id true s)

/-- Embedding of UnprotectMediaByID.on_POST
(src/synapse/rest/admin/media.py lines 185-196). -/
def unprotectMediaByID_onPOST (isAdmin : Bool) (hostname : String)
    (s : MediaStore) (media_id : String) : Except AdminError MediaStore :=
  if !isAdmin then .error .forbidden
  else .ok (mark_local_media_as_safe hostname media_id false s)

/-- Embedding of ListMediaInRoom.on_GET
(src/synapse/rest/admin/media.py lines 208-218). -/
def listMediaInRoom_onGET (isAdmin : Bool)
    (resolve : String → Option (List String × List MediaKey))
    (room_id : String) : Except AdminError (List String × List MediaKey) :=
  if !isAdmin then .error .forbidden
  else
    match resolve room_id with
    | none => .error .notFound
    | some (locals, remotes) => .ok (locals, remotes)

/-- Embedding of PurgeMediaCacheRestServlet.on_POST
(src/synapse/rest/admin/media.py lines 228-250): admin check, then reject a
negative `before_ts` and any `before_ts` below 30000000000 milliseconds as
invalid parameters, then purge old cached remote media. -/
def purgeMediaCache_onPOST (isAdmin : Bool) (hostname : String)
    (s : MediaStore) (before_ts : Int) :
    Except AdminError (MediaStore × List String) :=
  if !isAdmin then .error .forbidden
  else if before_ts < 0 then .error .invalidParameter
  else if before_ts < 30000000000 then .error .invalidParameter
  else .ok (delete_old_remote_media hostname before_ts s)

/-- Embedding of DeleteMediaByID.on_DELETE
(src/synapse/rest/admin/media.py lines 264-280): admin check, rejection of a
non-local server name, NotFound for an unknown local media id, then deletion
of the single item. -/
def deleteMediaByID_onDELETE (isAdmin : Bool) (hostname : String)
    (s : MediaStore) (server_name media_id : String) :
    Except AdminError (MediaStore × List String × Nat) :=
  if !isAdmin then .error .forbidden
  else if hostname != server_name then .error .invalidParameter
  else
    match get_local_media hostname media_id s with
    | none => .error .notFound
    | some _ => .ok (delete_local_media_ids hostname [media_id] s)

/-- Embedding of DeleteMediaByDateSize.on_POST
(src/synapse/rest/admin/media.py lines 296-336): admin check, the same
`before_ts` validation as the cache purge, a non-negative `size_gt`,
rejection of a non-local server name, then the age+size+safety purge. -/
def deleteMediaByDateSize_onPOST (isAdmin : Bool) (hostname : String)
    (profiles : List String) (s : MediaStore) (server_name : String)
    (before_ts size_gt : Int) (keep_profiles : Bool) :
    Except AdminError (MediaStore × List String × Nat) :=
  if !isAdmin then .error .forbidden
  else if before_ts < 0 then .error .invalidParameter
  else if before_ts < 30000000000 then .error .invalidParameter
  else if size_gt < 0 then .error .invalidParameter
  else if hostname != server_name then .error .invalidParameter
  else .ok (delete_old_local_media hostname profiles before_ts size_gt keep_profiles s)

/-- Final store after an operation: the returned store on success, the
untouched store on error (errors abort before any mutation). -/
def finalStore {α : Type} (s : MediaStore) :
    Except AdminError (MediaStore × α) → MediaStore
  | .ok (s2, _) => s2
  | .error _ => s

/-- Per-record protection invariant (spec section 3): a protected record is
not quarantined. -/
def recInv (r : MediaRecord) : Bool :=
  !r.safe_from_quarantine || r.quarantined_by.isNone

/-- Store-wide protection invariant. -/
def storeInv (s : MediaStore) : Bool :=
  s.records.all recInv

/-- Example store of the room-quarantine example (spec section 8): local
media A and B on this server, B protected, and a cached remote media C. -/
def exampleRoomStore : MediaStore :=
  ⟨[⟨⟨"hs", "A"⟩, "@u:hs", "a", "t", 10, 5, 5, none, false⟩,
    ⟨⟨"hs", "B"⟩, "@u:hs", "b", "t", 10, 5, 5, none, true⟩,
    ⟨⟨"other", "C"⟩, "@v:other", "c", "t", 10, 5, 5, none, false⟩]⟩

/-- Example room/event index: room1 references local A and B and remote C. -/
def exampleResolve : String → Option (List String × List MediaKey) :=
  fun rid => if rid == "room1" then some (["A", "B"], [⟨"other", "C"⟩]) else none

theorem storeInv_filter (p : MediaRecord → Bool) (s : MediaStore)
    (hs : storeInv s = true) : storeInv ⟨s.records.filter p⟩ = true := by
  simp only [storeInv, List.all_eq_true] at hs ⊢
  intro r hr
  exact hs r (List.mem_of_mem_filter hr)

theorem recInv_applyQuarantine (qb : Option String) (r : MediaRecord)
    (h : recInv r = true) : recInv (applyQuarantine qb r) = true := by
  cases qb with
  | none => simp [applyQuarantine, recInv]
  | some a =>
    simp only [applyQuarantine]
    split
    · exact h
    · simp_all [recInv]

theorem recInv_markSafeOne (hostname media_id : String) (safe : Bool)
    (r : MediaRecord) (h : recInv r = true) :
    recInv (markSafeOne hostname media_id safe r) = true := by
  simp only [markSafeOne]
  split
  · cases safe <;> simp [recInv]
  · exact h

theorem storeInv_map (f : MediaRecord → MediaRecord) (s : MediaStore)
    (hf : ∀ r, recInv r = true → recInv (f r) = true)
    (hs : storeInv s = true) : storeInv ⟨s.records.map f⟩ = true := by
  simp only [storeInv, List.all_eq_true] at hs ⊢
  intro r hr
  obtain ⟨r0, hr0, rfl⟩ := List.mem_map.mp hr
  exact hf r0 (hs r0 hr0)

/-- C1: for every media record and after every operation (quarantine by
room/user/id, unquarantine, protect, unprotect, delete), a record with
`safe_from_quarantine = true` has `quarantined_by = null`; in particular
protecting a currently-quarantined record clears its quarantine. -/
theorem c1_safe_implies_unquarantined
    (keys dkeys : List MediaKey) (qb : Option String)
    (hostname media_id : String) (safe : Bool) (ids profiles : List String)
    (before_ts size_gt : Int) (keep_profiles : Bool)
    (s : MediaStore) (hs : storeInv s = true) :
    storeInv (setQuarantine keys qb s).1 = true ∧
    storeInv (mark_local_media_as_safe hostname media_id safe s) = true ∧
    storeInv (deleteKeys dkeys s) = true ∧
    storeInv (delete_local_media_ids hostname ids s).1 = true ∧
    storeInv (delete_old_remote_media hostname before_ts s).1 = true ∧
    storeInv (delete_old_local_media hostname profiles before_ts size_gt
      keep_profiles s).1 = true ∧
    (mark_local_media_as_safe hostname media_id true s).records.all
      (fun r => !(r.key.server_name == hostname && r.key.media_id == media_id) ||
        (r.quarantined_by.isNone && r.safe_from_quarantine)) = true := by
  refine ⟨?_, ?_, ?_, ?_, ?_, ?_, ?_⟩
  · exact storeInv_map _ s
      (fun r h => by
        split
        · exact recInv_applyQuarantine qb r h
        · exact h) hs
  · exact storeInv_map _ s (recInv_markSafeOne hostname media_id safe) hs
  · exact storeInv_filter _ s hs
  · exact storeInv_filter _ s hs
  · exact storeInv_filter _ s hs
  · exact storeInv_filter _ s hs
  · simp only [mark_local_media_as_safe, List.all_eq_true]
    intro r hr
    obtain ⟨r0, _, rfl⟩ := List.mem_map.mp hr
    simp only [markSafeOne]
    split
    · simp_all
    · simp_all
      tauto

/-- Witness for C1 at a concrete store holding a protected record and a
quarantined record. -/
theorem c1_witness :
    storeInv (setQuarantine [⟨"hs", "A"⟩] (some "@admin:hs")
      ⟨[⟨⟨"hs", "A"⟩, "@u:hs", "a", "t", 1, 1, 1, none, true⟩,
        ⟨⟨"hs", "B"⟩, "@u:hs", "b", "t", 1, 1, 1, some "@admin:hs", false⟩]⟩).1 = true ∧
    (mark_local_media_as_safe "hs" "B" true
      ⟨[⟨⟨"hs", "B"⟩, "@u:hs", "b", "t", 1, 1, 1, some "@admin:hs", false⟩]⟩).records.all
      (fun r => !(r.key.server_name == "hs" && r.key.media_id == "B") ||
        (r.quarantined_by.isNone && r.safe_from_quarantine)) = true := by
  have h := c1_safe_implies_unquarantined [⟨"hs", "A"⟩] [] (some "@admin:hs")
    "hs" "B" true [] [] 0 0 false
    ⟨[⟨⟨"hs", "A"⟩, "@u:hs", "a", "t", 1, 1, 1, none, true⟩,
      ⟨⟨"hs", "B"⟩, "@u:hs", "b", "t", 1, 1, 1, some "@admin:hs", false⟩]⟩ (by decide)
  have h2 := c1_safe_implies_unquarantined [] [] none "hs" "B" true [] [] 0 0 false
    ⟨[⟨⟨"hs", "B"⟩, "@u:hs", "b", "t", 1, 1, 1, some "@admin:hs", false⟩]⟩ (by decide)
  exact ⟨h.1, h2.2.2.2.2.2.2⟩

/-- C5: when neither `order_by` nor `dir` is supplied the user-media listing
sorts by creation time backward (newest first); when at least one is
supplied the missing one defaults to `created_ts` respectively forward, so
the no-parameter case differs from the explicit-default case in direction. -/
theorem c5_default_sort_asymmetry
    (o : Option MediaSortOrder) (d : Option SortDirection) :
    resolveSort none none = (.created_ts, .b) ∧
    ((o ≠ none ∨ d ≠ none) →
      resolveSort o d = (o.getD .created_ts, d.getD .f)) ∧
    (resolveSort none none).2 ≠ (resolveSort (some .created_ts) none).2 := by
  refine ⟨rfl, ?_, by decide⟩
  intro h
  rcases o with _ | o <;> rcases d with _ | d
  · cases h with
    | inl h1 => exact absurd rfl h1
    | inr h1 => exact absurd rfl h1
  · rfl
  · rfl
  · rfl

/-- Witness for C5: supplying only the default sort key yields the forward
direction, while supplying nothing yields backward. -/
theorem c5_witness :
    resolveSort (some .created_ts) none =
      ((Option.some MediaSortOrder.created_ts).getD .created_ts,
        (Option.none (α := SortDirection)).getD .f) ∧
    (resolveSort none none).2 ≠ (resolveSort (some .created_ts) none).2 := by
  have h := c5_default_sort_asymmetry (some .created_ts) none
  exact ⟨h.2.1 (Or.inl (by decide)), h.2.2⟩

/-- C7: unquarantine by id is exactly `setQuarantine` of the singleton key
with a null actor, succeeds on an already-unquarantined record, and is
idempotent: applying it twice yields the same store as applying it once. -/
theorem c7_unquarantine_idempotent (sn mid : String) (s : MediaStore) :
    quarantine_media_by_id sn mid none s = (setQuarantine [⟨sn, mid⟩] none s).1 ∧
    unquarantineMediaByID_onPOST true s sn mid =
      .ok (quarantine_media_by_id sn mid none s) ∧
    quarantine_media_by_id sn mid none (quarantine_media_by_id sn mid none s) =
      quarantine_media_by_id sn mid none s := by
  refine ⟨rfl, rfl, ?_⟩
  simp only [quarantine_media_by_id, setQuarantine, List.map_map]
  congr 1
  apply List.map_congr_left
  intro r _
  simp only [Function.comp_apply]
  by_cases h : ([MediaKey.mk sn mid].contains r.key) = true
  · rw [if_pos h]
    rw [if_pos (show ([MediaKey.mk sn mid].contains
      (applyQuarantine none r).key) = true from h)]
    rfl
  · rw [if_neg h, if_neg h]

/-- C2: both purge endpoints reject a `before_ts` that is negative or below
the plausible-epoch-milliseconds threshold, and the date/size delete also
rejects a negative `size_gt`, each with `InvalidParameter` and with the
store untouched; in particular `before_ts = 1000` is rejected. -/
theorem c2_purge_validation (hostname server_name : String)
    (profiles : List String) (s : MediaStore)
    (before_ts size_gt : Int) (keep_profiles : Bool) :
    (before_ts < 30000000000 →
      purgeMediaCache_onPOST true hostname s before_ts = .error .invalidParameter ∧
      finalStore s (purgeMediaCache_onPOST true hostname s before_ts) = s ∧
      deleteMediaByDateSize_onPOST true hostname profiles s server_name
        before_ts size_gt keep_profiles = .error .invalidParameter ∧
      finalStore s (deleteMediaByDateSize_onPOST true hostname profiles s
        server_name before_ts size_gt keep_profiles) = s) ∧
    (size_gt < 0 →
      deleteMediaByDateSize_onPOST true hostname profiles s server_name
        before_ts size_gt keep_profiles = .error .invalidParameter ∧
      finalStore s (deleteMediaByDateSize_onPOST true hostname profiles s
        server_name before_ts size_gt keep_profiles) = s) ∧
    purgeMediaCache_onPOST true hostname s 1000 = .error .invalidParameter := by
  refine ⟨?_, ?_, ?_⟩
  · intro h
    by_cases hneg : before_ts < 0
    · simp [purgeMediaCache_onPOST, deleteMediaByDateSize_onPOST, hneg, finalStore]
    · simp [purgeMediaCache_onPOST, deleteMediaByDateSize_onPOST, hneg, h, finalStore]
  · intro h
    by_cases hneg : before_ts < 0
    · simp [deleteMediaByDateSize_onPOST, hneg, finalStore]
    · by_cases hlow : before_ts < 30000000000
      · simp [deleteMediaByDateSize_onPOST, hneg, hlow, finalStore]
      · simp [deleteMediaByDateSize_onPOST, hneg, hlow, h, finalStore]
  · rfl

/-- Witness for C2: `before_ts = 1000` and `size_gt = -1` are both rejected
with `InvalidParameter` on a one-record store, leaving it unchanged. -/
theorem c2_witness :
    purgeMediaCache_onPOST true "hs"
      ⟨[⟨⟨"hs", "A"⟩, "@u:hs", "a", "t", 1, 1, 1, none, false⟩]⟩ 1000 =
      .error .invalidParameter ∧
    deleteMediaByDateSize_onPOST true "hs" []
      ⟨[⟨⟨"hs", "A"⟩, "@u:hs", "a", "t", 1, 1, 1, none, false⟩]⟩ "hs"
      40000000000 (-1) true = .error .invalidParameter ∧
    finalStore ⟨[⟨⟨"hs", "A"⟩, "@u:hs", "a", "t", 1, 1, 1, none, false⟩]⟩
      (purgeMediaCache_onPOST true "hs"
        ⟨[⟨⟨"hs", "A"⟩, "@u:hs", "a", "t", 1, 1, 1, none, false⟩]⟩ 1000) =
      ⟨[⟨⟨"hs", "A"⟩, "@u:hs", "a", "t", 1, 1, 1, none, false⟩]⟩ := by
  have h := c2_purge_validation "hs" "hs" []
    ⟨[⟨⟨"hs", "A"⟩, "@u:hs", "a", "t", 1, 1, 1, none, false⟩]⟩ 1000 (-1) true
  have h2 := c2_purge_validation "hs" "hs" []
    ⟨[⟨⟨"hs", "A"⟩, "@u:hs", "a", "t", 1, 1, 1, none, false⟩]⟩ 40000000000 (-1) true
  exact ⟨(h.1 (by decide)).1, (h2.2.1 (by decide)).1, (h.1 (by decide)).2.1⟩

/-- C3: single-item delete rejects a non-local server name with
`InvalidParameter`, fails `NotFound` for a missing local record, deletes
nothing in both cases, and otherwise deletes exactly the one item,
returning it with total 1. -/
theorem c3_delete_by_id (hostname server_name media_id : String)
    (s : MediaStore) :
    (hostname ≠ server_name →
      deleteMediaByID_onDELETE true hostname s server_name media_id =
        .error .invalidParameter ∧
      finalStore s (deleteMediaByID_onDELETE true hostname s server_name
        media_id) = s) ∧
    (get_local_media hostname media_id s = none →
      deleteMediaByID_onDELETE true hostname s hostname media_id =
        .error .notFound ∧
      finalStore s (deleteMediaByID_onDELETE true hostname s hostname
        media_id) = s) ∧
    ((get_local_media hostname media_id s).isSome = true →
      (deleteMediaByID_onDELETE true hostname s hostname media_id).toOption.map
        (fun x => (x.2.1, x.2.2)) = some ([media_id], 1) ∧
      (finalStore s (deleteMediaByID_onDELETE true hostname s hostname
        media_id)).records.all
        (fun r => !(r.key.server_name == hostname && r.key.media_id == media_id))
        = true) := by
  refine ⟨?_, ?_, ?_⟩
  · intro h
    have hb : (hostname != server_name) = true := by
      simpa using h
    simp [deleteMediaByID_onDELETE, hb, finalStore]
  · intro h
    simp [deleteMediaByID_onDELETE, h, finalStore]
  · intro h
    obtain ⟨r0, hr0⟩ := Option.isSome_iff_exists.mp h
    simp only [deleteMediaByID_onDELETE, bne_self_eq_false, Bool.not_true,
      Bool.false_eq_true, if_false, hr0]
    constructor
    · simp [delete_local_media_ids, Except.toOption, List.filter, h]
    · simp only [finalStore, delete_local_media_ids, List.all_eq_true]
      intro r hr
      have hp := List.of_mem_filter hr
      simpa using hp

/-- Witness for C3 on a two-record store: deleting an existing record
returns it with total 1 and removes it, a foreign server name is rejected,
and an unknown id is NotFound. -/
theorem c3_witness :
    (deleteMediaByID_onDELETE true "hs"
      ⟨[⟨⟨"hs", "A"⟩, "@u:hs", "a", "t", 1, 1, 1, none, false⟩,
        ⟨⟨"hs", "B"⟩, "@u:hs", "b", "t", 1, 1, 1, none, false⟩]⟩ "hs" "A").toOption.map
      (fun x => (x.2.1, x.2.2)) = some (["A"], 1) ∧
    deleteMediaByID_onDELETE true "hs"
      ⟨[⟨⟨"hs", "A"⟩, "@u:hs", "a", "t", 1, 1, 1, none, false⟩,
        ⟨⟨"hs", "B"⟩, "@u:hs", "b", "t", 1, 1, 1, none, false⟩]⟩ "other" "A" =
      .error .invalidParameter ∧
    deleteMediaByID_onDELETE true "hs"
      ⟨[⟨⟨"hs", "A"⟩, "@u:hs", "a", "t", 1, 1, 1, none, false⟩,
        ⟨⟨"hs", "B"⟩, "@u:hs", "b", "t", 1, 1, 1, none, false⟩]⟩ "hs" "C" =
      .error .notFound := by
  have h := c3_delete_by_id "hs" "other" "A"
    ⟨[⟨⟨"hs", "A"⟩, "@u:hs", "a", "t", 1, 1, 1, none, false⟩,
      ⟨⟨"hs", "B"⟩, "@u:hs", "b", "t", 1, 1, 1, none, false⟩]⟩
  have h2 := c3_delete_by_id "hs" "hs" "C"
    ⟨[⟨⟨"hs", "A"⟩, "@u:hs", "a", "t", 1, 1, 1, none, false⟩,
      ⟨⟨"hs", "B"⟩, "@u:hs", "b", "t", 1, 1, 1, none, false⟩]⟩
  exact ⟨(h.2.2 (by decide)).1, (h.1 (by decide)).1, (h2.2.1 (by decide)).1⟩

/-- C6: the room-quarantine count is the number of targeted records whose
quarantine flag actually changed, protected records are skipped and left in
place unchanged, and on the example room (local A and B with B protected,
remote C) the servlet returns a count of 2 with B still unquarantined. -/
theorem c6_room_quarantine_count (hostname actor : String)
    (locals : List String) (remotes : List MediaKey) (s : MediaStore) :
    (quarantine_media_ids_in_room hostname locals remotes actor s).2 =
      s.records.countP (fun r =>
        (locals.map (fun i => MediaKey.mk hostname i) ++ remotes).contains r.key
          && !r.safe_from_quarantine && !(r.quarantined_by == some actor)) ∧
    (∀ r ∈ s.records, r.safe_from_quarantine = true →
      r ∈ (quarantine_media_ids_in_room hostname locals remotes actor s).1.records) ∧
    (quarantineMediaInRoom_onPOST true exampleResolve "hs" exampleRoomStore
      "room1" "@admin:hs").toOption.map (fun x => x.2) = some 2 ∧
    (finalStore exampleRoomStore (quarantineMediaInRoom_onPOST true
      exampleResolve "hs" exampleRoomStore "room1" "@admin:hs")).records.all
      (fun r => !(r.key.media_id == "B") || r.quarantined_by.isNone) = true := by
  refine ⟨?_, ?_, by decide, by decide⟩
  · simp only [quarantine_media_ids_in_room, setQuarantine]
    apply List.countP_congr
    intro r _
    by_cases hsafe : r.safe_from_quarantine = true
    · simp [applyQuarantine, hsafe]
    · simp only [Bool.not_eq_true] at hsafe
      simp [applyQuarantine, hsafe, Bool.beq_comm]
      exact fun _ => not_congr eq_comm
  · intro r hr hsafe
    simp only [quarantine_media_ids_in_room, setQuarantine]
    apply List.mem_map.mpr
    refine ⟨r, hr, ?_⟩
    split
    · simp [applyQuarantine, hsafe]
    · rfl

/-- C8: every entry point of the admin media surface rejects a non-admin
caller with Forbidden before performing any mutation. -/
theorem c8_admin_required
    (resolve : String → Option (List String × List MediaKey))
    (hostname server_name room_id user_id actor media_id : String)
    (profiles : List String) (s : MediaStore) (before_ts size_gt : Int)
    (keep_profiles : Bool) (start limit : Int)
    (isMine : String → Bool) (knownUsers : List String)
    (order_by : Option MediaSortOrder) (dir : Option SortDirection) :
    quarantineMediaInRoom_onPOST false resolve hostname s room_id actor =
      .error .forbidden ∧
    finalStore s (quarantineMediaInRoom_onPOST false resolve hostname s
      room_id actor) = s ∧
    quarantineMediaByUser_onPOST false hostname s user_id actor =
      .error .forbidden ∧
    quarantineMediaByID_onPOST false s server_name media_id actor =
      .error .forbidden ∧
    unquarantineMediaByID_onPOST false s server_name media_id =
      .error .forbidden ∧
    protectMediaByID_onPOST false hostname s media_id = .error .forbidden ∧
    unprotectMediaByID_onPOST false hostname s media_id = .error .forbidden ∧
    listMediaInRoom_onGET false resolve room_id = .error .forbidden ∧
    purgeMediaCache_onPOST false hostname s before_ts = .error .forbidden ∧
    finalStore s (purgeMediaCache_onPOST false hostname s before_ts) = s ∧
    deleteMediaByID_onDELETE false hostname s server_name media_id =
      .error .forbidden ∧
    finalStore s (deleteMediaByID_onDELETE false hostname s server_name
      media_id) = s ∧
    deleteMediaByDateSize_onPOST false hostname profiles s server_name
      before_ts size_gt keep_profiles = .error .forbidden ∧
    finalStore s (deleteMediaByDateSize_onPOST false hostname profiles s
      server_name before_ts size_gt keep_profiles) = s ∧
    userMedia_onGET false isMine knownUsers hostname s user_id start limit
      order_by dir = .error .forbidden ∧
    userMedia_onDELETE false isMine knownUsers hostname s user_id start limit
      order_by dir = .error .forbidden ∧
    finalStore s (userMedia_onDELETE false isMine knownUsers hostname s
      user_id start limit order_by dir) = s := by
  exact ⟨rfl, rfl, rfl, rfl, rfl, rfl, rfl, rfl, rfl, rfl, rfl, rfl, rfl,
    rfl, rfl, rfl, rfl⟩

theorem length_insertLe {α : Type} (le : α → α → Bool) (x : α) (l : List α) :
    (insertLe le x l).length = l.length + 1 := by
  induction l with
  | nil => rfl
  | cons y ys ih =>
    simp only [insertLe]
    split
    · rfl
    · simp [List.length_cons, ih]

theorem length_sortByLe {α : Type} (le : α → α → Bool) (l : List α) :
    (sortByLe le l).length = l.length := by
  induction l with
  | nil => rfl
  | cons x xs ih => simp [sortByLe, length_insertLe, ih]

theorem mem_insertLe {α : Type} (le : α → α → Bool) (x a : α) (l : List α)
    (h : a ∈ insertLe le x l) : a = x ∨ a ∈ l := by
  induction l with
  | nil =>
    simp only [insertLe, List.mem_singleton] at h
    exact Or.inl h
  | cons y ys ih =>
    simp only [insertLe] at h
    split at h
    · rcases List.mem_cons.mp h with h1 | h1
      · exact Or.inl h1
      · exact Or.inr h1
    · rcases List.mem_cons.mp h with h1 | h1
      · exact Or.inr (h1 ▸ List.mem_cons_self y ys)
      · rcases ih h1 with h2 | h2
        · exact Or.inl h2
        · exact Or.inr (List.mem_cons_of_mem y h2)

theorem mem_sortByLe {α : Type} (le : α → α → Bool) (l : List α) (a : α)
    (h : a ∈ sortByLe le l) : a ∈ l := by
  induction l with
  | nil =>
    simp only [sortByLe] at h
    exact absurd h (List.not_mem_nil a)
  | cons x xs ih =>
    rcases mem_insertLe le x a (sortByLe le xs) h with h1 | h1
    · exact h1 ▸ List.mem_cons_self x xs
    · exact List.mem_cons_of_mem x (ih h1)

/-- C4: a passing user-media GET returns the user's full row count as
`total`, a page of `min(limit, total - from)` rows, `next_token` present
exactly when `from + limit < total`, and a present `next_token` equal to
`from` plus the page length. -/
theorem c4_next_token (isMine : String → Bool) (knownUsers : List String)
    (hostname user_id : String) (s : MediaStore) (start limit : Int)
    (order_by : Option MediaSortOrder) (dir : Option SortDirection)
    (hmine : isMine user_id = true)
    (hknown : knownUsers.contains user_id = true)
    (hstart : 0 ≤ start) (hlimit : 0 ≤ limit) :
    ∃ resp, userMedia_onGET true isMine knownUsers hostname s user_id start
        limit order_by dir = .ok resp ∧
      resp.total = (s.records.filter (fun r =>
        r.key.server_name == hostname && r.user_id == user_id)).length ∧
      resp.media.length = min limit.toNat (resp.total - start.toNat) ∧
      (resp.next_token.isSome = true ↔ start + limit < (resp.total : Int)) ∧
      resp.next_token.getD (start + resp.media.length) =
        start + resp.media.length := by
  have h1 : ¬start < 0 := not_lt.mpr hstart
  have h2 : ¬limit < 0 := not_lt.mpr hlimit
  simp only [userMedia_onGET, hmine, hknown, h1, h2, Bool.not_true,
    Bool.false_eq_true, if_false, ite_false, Bool.not_false]
  refine ⟨_, rfl, rfl, ?_, ?_, ?_⟩
  · simp only [get_local_media_by_user_paginate, List.length_take,
      List.length_drop, length_sortByLe]
  · split <;> rename_i hc <;> simpa using hc
  · split
    · rfl
    · rfl

/-- Witness for C4 on a store with three media of one user, `from = 0`,
`limit = 2`: a next token is returned and equals the page length. -/
theorem c4_witness :
    ∃ resp, userMedia_onGET true (fun u => u == "@u:hs") ["@u:hs"] "hs"
        ⟨[⟨⟨"hs", "A"⟩, "@u:hs", "a", "t", 10, 5, 5, none, false⟩,
          ⟨⟨"hs", "B"⟩, "@u:hs", "b", "t", 10, 6, 6, none, false⟩,
          ⟨⟨"hs", "C"⟩, "@u:hs", "c", "t", 10, 7, 7, none, false⟩]⟩
        "@u:hs" 0 2 none none = .ok resp ∧
      resp.total = (MediaStore.records
        ⟨[⟨⟨"hs", "A"⟩, "@u:hs", "a", "t", 10, 5, 5, none, false⟩,
          ⟨⟨"hs", "B"⟩, "@u:hs", "b", "t", 10, 6, 6, none, false⟩,
          ⟨⟨"hs", "C"⟩, "@u:hs", "c", "t", 10, 7, 7, none, false⟩]⟩
        |>.filter (fun r => r.key.server_name == "hs" && r.user_id == "@u:hs")).length ∧
      resp.media.length = min (Int.toNat 2) (resp.total - Int.toNat 0) ∧
      (resp.next_token.isSome = true ↔ (0 : Int) + 2 < (resp.total : Int)) ∧
      resp.next_token.getD (0 + resp.media.length) = 0 + resp.media.length :=
  c4_next_token (fun u => u == "@u:hs") ["@u:hs"] "hs" "@u:hs"
    ⟨[⟨⟨"hs", "A"⟩, "@u:hs", "a", "t", 10, 5, 5, none, false⟩,
      ⟨⟨"hs", "B"⟩, "@u:hs", "b", "t", 10, 6, 6, none, false⟩,
      ⟨⟨"hs", "C"⟩, "@u:hs", "c", "t", 10, 7, 7, none, false⟩]⟩
    0 2 none none (by decide) (by decide) (by decide) (by decide)

/-- C9: a passing user-media DELETE lists exactly one page (at most `limit`
rows) and hands only that page's media ids to deletion, so any record whose
media id is not on the page survives the call. -/
theorem c9_delete_at_most_one_page (isMine : String → Bool)
    (knownUsers : List String) (hostname user_id : String) (s : MediaStore)
    (start limit : Int) (order_by : Option MediaSortOrder)
    (dir : Option SortDirection)
    (hmine : isMine user_id = true)
    (hknown : knownUsers.contains user_id = true)
    (hstart : 0 ≤ start) (hlimit : 0 ≤ limit) :
    ∃ page : List MediaRecord,
      page = (get_local_media_by_user_paginate hostname s start.toNat
        limit.toNat user_id (resolveSort order_by dir).1
        (resolveSort order_by dir).2).1 ∧
      userMedia_onDELETE true isMine knownUsers hostname s user_id start
        limit order_by dir =
        .ok (delete_local_media_ids hostname
          (page.map fun r => r.key.media_id) s) ∧
      page.length ≤ limit.toNat ∧
      ∀ r ∈ s.records,
        ((page.map fun r => r.key.media_id).contains r.key.media_id) = false →
        r ∈ (delete_local_media_ids hostname
          (page.map fun r => r.key.media_id) s).1.records := by
  have h1 : ¬start < 0 := not_lt.mpr hstart
  have h2 : ¬limit < 0 := not_lt.mpr hlimit
  refine ⟨_, rfl, ?_, ?_, ?_⟩
  · simp only [userMedia_onDELETE, hmine, hknown, h1, h2, Bool.not_true,
      Bool.false_eq_true, if_false, ite_false, Bool.not_false]
  · exact List.length_take_le _ _
  · intro r hr hid
    apply List.mem_filter.mpr
    refine ⟨hr, ?_⟩
    have hid2 : r.key.media_id ∉
        ((get_local_media_by_user_paginate hostname s start.toNat limit.toNat
          user_id (resolveSort order_by dir).1
          (resolveSort order_by dir).2).1.map fun r => r.key.media_id) := by
      simpa using hid
    simp only [Bool.not_eq_true', Bool.and_eq_false_imp]
    intro _
    simpa using fun x hx hxr => hid2 (List.mem_map.mpr ⟨x, hx, hxr⟩)

/-- Witness for C9 on a store with three media of one user and `limit = 2`:
the call succeeds after listing a page of at most two rows, and records off
the page survive. -/
theorem c9_witness :
    ∃ page : List MediaRecord,
      page = (get_local_media_by_user_paginate "hs"
        ⟨[⟨⟨"hs", "A"⟩, "@u:hs", "a", "t", 10, 5, 5, none, false⟩,
          ⟨⟨"hs", "B"⟩, "@u:hs", "b", "t", 10, 6, 6, none, false⟩,
          ⟨⟨"hs", "C"⟩, "@u:hs", "c", "t", 10, 7, 7, none, false⟩]⟩
        (Int.toNat 0) (Int.toNat 2) "@u:hs" (resolveSort none none).1
        (resolveSort none none).2).1 ∧
      userMedia_onDELETE true (fun u => u == "@u:hs") ["@u:hs"] "hs"
        ⟨[⟨⟨"hs", "A"⟩, "@u:hs", "a", "t", 10, 5, 5, none, false⟩,
          ⟨⟨"hs", "B"⟩, "@u:hs", "b", "t", 10, 6, 6, none, false⟩,
          ⟨⟨"hs", "C"⟩, "@u:hs", "c", "t", 10, 7, 7, none, false⟩]⟩
        "@u:hs" 0 2 none none =
        .ok (delete_local_media_ids "hs" (page.map fun r => r.key.media_id)
          ⟨[⟨⟨"hs", "A"⟩, "@u:hs", "a", "t", 10, 5, 5, none, false⟩,
            ⟨⟨"hs", "B"⟩, "@u:hs", "b", "t", 10, 6, 6, none, false⟩,
            ⟨⟨"hs", "C"⟩, "@u:hs", "c", "t", 10, 7, 7, none, false⟩]⟩) ∧
      page.length ≤ Int.toNat 2 ∧
      ∀ r ∈ MediaStore.records
        ⟨[⟨⟨"hs", "A"⟩, "@u:hs", "a", "t", 10, 5, 5, none, false⟩,
          ⟨⟨"hs", "B"⟩, "@u:hs", "b", "t", 10, 6, 6, none, false⟩,
          ⟨⟨"hs", "C"⟩, "@u:hs", "c", "t", 10, 7, 7, none, false⟩]⟩,
        ((page.map fun r => r.key.media_id).contains r.key.media_id) = false →
        r ∈ (delete_local_media_ids "hs" (page.map fun r => r.key.media_id)
          ⟨[⟨⟨"hs", "A"⟩, "@u:hs", "a", "t", 10, 5, 5, none, false⟩,
            ⟨⟨"hs", "B"⟩, "@u:hs", "b", "t", 10, 6, 6, none, false⟩,
            ⟨⟨"hs", "C"⟩, "@u:hs", "c", "t", 10, 7, 7, none, false⟩]⟩).1.records :=
  c9_delete_at_most_one_page (fun u => u == "@u:hs") ["@u:hs"] "hs" "@u:hs"
    ⟨[⟨⟨"hs", "A"⟩, "@u:hs", "a", "t", 10, 5, 5, none, false⟩,
      ⟨⟨"hs", "B"⟩, "@u:hs", "b", "t", 10, 6, 6, none, false⟩,
      ⟨⟨"hs", "C"⟩, "@u:hs", "c", "t", 10, 7, 7, none, false⟩]⟩
    0 2 none none (by decide) (by decide) (by decide) (by decide)

/-- C10: both user-media endpoints reject a user of another server, an
unknown local user and a negative `from` or `limit`, each before any
listing or deletion, leaving the store unchanged. -/
theorem c10_user_media_validation (isMine : String → Bool)
    (knownUsers : List String) (hostname user_id : String) (s : MediaStore)
    (start limit : Int) (order_by : Option MediaSortOrder)
    (dir : Option SortDirection) :
    (isMine user_id = false →
      userMedia_onGET true isMine knownUsers hostname s user_id start limit
        order_by dir = .error .invalidParameter ∧
      userMedia_onDELETE true isMine knownUsers hostname s user_id start
        limit order_by dir = .error .invalidParameter ∧
      finalStore s (userMedia_onDELETE true isMine knownUsers hostname s
        user_id start limit order_by dir) = s) ∧
    (isMine user_id = true → knownUsers.contains user_id = false →
      userMedia_onGET true isMine knownUsers hostname s user_id start limit
        order_by dir = .error .notFound ∧
      userMedia_onDELETE true isMine knownUsers hostname s user_id start
        limit order_by dir = .error .notFound ∧
      finalStore s (userMedia_onDELETE true isMine knownUsers hostname s
        user_id start limit order_by dir) = s) ∧
    (isMine user_id = true → knownUsers.contains user_id = true →
      (start < 0 ∨ limit < 0) →
      userMedia_onGET true isMine knownUsers hostname s user_id start limit
        order_by dir = .error .invalidParameter ∧
      userMedia_onDELETE true isMine knownUsers hostname s user_id start
        limit order_by dir = .error .invalidParameter ∧
      finalStore s (userMedia_onDELETE true isMine knownUsers hostname s
        user_id start limit order_by dir) = s) := by
  refine ⟨?_, ?_, ?_⟩
  · intro hmine
    simp [userMedia_onGET, userMedia_onDELETE, hmine, finalStore]
  · intro hmine hknown
    have h3 : user_id ∉ knownUsers := by simpa using hknown
    simp [userMedia_onGET, userMedia_onDELETE, hmine, h3, finalStore]
  · intro hmine hknown hneg
    have h3 : user_id ∈ knownUsers := by simpa using hknown
    by_cases hstart : start < 0
    · simp [userMedia_onGET, userMedia_onDELETE, hmine, h3, hstart,
        finalStore]
    · have hlim : limit < 0 := hneg.resolve_left hstart
      simp [userMedia_onGET, userMedia_onDELETE, hmine, h3, hstart, hlim,
        finalStore]

/-- Witness for C10: a foreign user, an unknown local user and negative
paging parameters are each rejected on an empty store. -/
theorem c10_witness :
    userMedia_onGET true (fun u => u == "@u:hs") ["@u:hs"] "hs" ⟨[]⟩
      "@v:other" 0 100 none none = .error .invalidParameter ∧
    userMedia_onGET true (fun _ => true) ["@u:hs"] "hs" ⟨[]⟩ "@w:hs" 0 100
      none none = .error .notFound ∧
    userMedia_onGET true (fun _ => true) ["@u:hs"] "hs" ⟨[]⟩ "@u:hs" (-1)
      100 none none = .error .invalidParameter ∧
    userMedia_onDELETE true (fun _ => true) ["@u:hs"] "hs" ⟨[]⟩ "@u:hs" 0
      (-5) none none = .error .invalidParameter ∧
    finalStore ⟨[]⟩ (userMedia_onDELETE true (fun _ => true) ["@u:hs"] "hs"
      ⟨[]⟩ "@u:hs" 0 (-5) none none) = ⟨[]⟩ := by
  have ha := c10_user_media_validation (fun u => u == "@u:hs") ["@u:hs"]
    "hs" "@v:other" ⟨[]⟩ 0 100 none none
  have hb := c10_user_media_validation (fun _ => true) ["@u:hs"] "hs"
    "@w:hs" ⟨[]⟩ 0 100 none none
  have hc := c10_user_media_validation (fun _ => true) ["@u:hs"] "hs"
    "@u:hs" ⟨[]⟩ (-1) 100 none none
  have hd := c10_user_media_validation (fun _ => true) ["@u:hs"] "hs"
    "@u:hs" ⟨[]⟩ 0 (-5) none none
  exact ⟨(ha.1 (by decide)).1, (hb.2.1 (by decide) (by decide)).1,
    (hc.2.2 (by decide) (by decide) (Or.inl (by decide))).1,
    (hd.2.2 (by decide) (by decide) (Or.inr (by decide))).2.1,
    (hd.2.2 (by decide) (by decide) (Or.inr (by decide))).2.2⟩

end Synapse
